import Mathlib

/-
Shallow embedding of the py-smartdc network subsystem
(src/smartdc/network.py and src/smartdc/tef.py).

Python dicts become association lists from String to DVal, optional
arguments become Option, and a call that raises becomes Except.  A result
of the form Except.ok params means the function reached the line that
issues the HTTP request, with params as the body it submits; any
Except.error value is raised before a request is issued.  Python assert
failures (AssertionError, the InvalidArgument of the specification) are
kept distinct from unchecked KeyError and AttributeError crashes.
-/

/-- A JSON-ish value stored in a parameter or data mapping. -/
inductive DVal where
  | str (s : String)
  | int (n : Int)
  | bool (b : Bool)
  | strList (xs : List String)
deriving DecidableEq, Repr

/-- A Python dict with string keys, as an association list in insertion order. -/
abbrev Dict := List (String × DVal)

/-- Errors a call can raise before reaching its HTTP request. -/
inductive PyErr where
  | assertError (msg : String)
  | keyError (key : String)
  | attributeError (msg : String)
deriving DecidableEq, Repr

instance {ε α : Type} [DecidableEq ε] [DecidableEq α] : DecidableEq (Except ε α) := fun a b =>
  match a, b with
  | .ok x, .ok y =>
    if h : x = y then isTrue (by rw [h]) else isFalse (fun hc => by cases hc; exact h rfl)
  | .error x, .error y =>
    if h : x = y then isTrue (by rw [h]) else isFalse (fun hc => by cases hc; exact h rfl)
  | .ok _, .error _ => isFalse (fun hc => by cases hc)
  | .error _, .ok _ => isFalse (fun hc => by cases hc)

/-- True when the Except value is an AssertionError, the error raised by the
validation asserts; the specification calls these InvalidArgument. -/
def isAssertError {α : Type} : Except PyErr α → Bool
  | .error (.assertError _) => true
  | _ => false

/-- Python truthiness of an optional string argument: None and the empty
string are falsy. -/
def pyTruthyOptStr : Option String → Bool
  | none => false
  | some s => !(s == "")

/-- Python truthiness of an optional integer argument: None and 0 are falsy. -/
def pyTruthyOptInt : Option Int → Bool
  | none => false
  | some n => !(n == 0)

/-- Remove every entry with the given key, modelling dict pop on a dict whose
keys are unique. -/
def removeKey (k : String) (d : Dict) : Dict :=
  d.filter (fun p => !(p.1 == k))

/-- Python truthiness of an optional dict: None and the empty dict are falsy. -/
def pyTruthyOptDict : Option Dict → Bool
  | none => false
  | some d => !d.isEmpty

/-- Python str.find for a single character: index of the first occurrence,
or -1 when absent. -/
def pyFindChar (s : String) (c : Char) : Int :=
  match s.data.findIdx? (fun x => x == c) with
  | some i => (i : Int)
  | none => -1

/-
A matcher for the regular expressions the source passes to re.match.  All
of them are built from character classes, concatenation, an optional
group, one-or-more repetition and bounded repetition, so the abstract
syntax below covers exactly those forms.  Matching follows re.match:
the pattern has to match a prefix of the string starting at position 0,
and is not anchored at the end.
-/

/-- Abstract syntax of the regular expressions used by the source. -/
inductive Re where
  | one (p : Char → Bool)
  | seq (a b : Re)
  | repRange (p : Char → Bool) (lo hi : Nat)
  | plus (p : Char → Bool)
  | opt (a : Re)

/-- All suffixes that remain after the pattern consumes a prefix of the
character list; the pattern matches at position 0 iff this list is nonempty. -/
def Re.suffixes : Re → List Char → List (List Char)
  | .one _, [] => []
  | .one p, c :: cs => if p c then [cs] else []
  | .seq a b, cs => (Re.suffixes a cs).flatMap (Re.suffixes b)
  | .repRange p lo hi, cs =>
    (List.range (hi + 1)).filterMap (fun k =>
      if lo ≤ k ∧ k ≤ cs.length ∧ (cs.take k).all p = true then some (cs.drop k) else none)
  | .plus p, cs => (List.range ((cs.takeWhile p).length)).map (fun i => cs.drop (i + 1))
  | .opt a, cs => cs :: Re.suffixes a cs

/-- Python re.match as a Bool: does the pattern match some prefix of s. -/
def reMatch (r : Re) (s : String) : Bool :=
  !(Re.suffixes r s.data).isEmpty

def isDigitCh (c : Char) : Bool := '0' ≤ c && c ≤ '9'

def isAlnumCh (c : Char) : Bool :=
  ('a' ≤ c && c ≤ 'z') || ('A' ≤ c && c ≤ 'Z') || isDigitCh c

/-- The class of the inbound-rule name pattern: letters, digits, hyphen,
underscore. -/
def isRuleNameChar (c : Char) : Bool := isAlnumCh c || c == '-' || c == '_'

/-- The class of the network name pattern: letters, digits, hyphen. -/
def isNetNameChar (c : Char) : Bool := isAlnumCh c || c == '-'

/-- The rule-name pattern of add_inbound_rule. -/
def ruleNameRe : Re := Re.repRange isRuleNameChar 1 32

/-- The network-name pattern of create_network. -/
def netNameRe : Re := Re.repRange isNetNameChar 1 32

/-- The dotted-quad pattern used for destination_ip. -/
def ipRe : Re :=
  Re.seq (Re.plus isDigitCh)
    (Re.seq (Re.one (fun c => c == '.'))
      (Re.seq (Re.plus isDigitCh)
        (Re.seq (Re.one (fun c => c == '.'))
          (Re.seq (Re.plus isDigitCh)
            (Re.seq (Re.one (fun c => c == '.')) (Re.plus isDigitCh))))))

/-- The source_subnet pattern of add_inbound_rule: dotted quad with an
optional slash-mask. -/
def srcSubnetRe : Re :=
  Re.seq ipRe (Re.opt (Re.seq (Re.one (fun c => c == '/')) (Re.plus isDigitCh)))

/-- The subnet pattern of create_network: dotted quad with a required
slash-mask. -/
def subnetRe : Re :=
  Re.seq ipRe (Re.seq (Re.one (fun c => c == '/')) (Re.plus isDigitCh))

/-- The protocols argument of add_inbound_rule: absent, a single string, or
a list of strings. -/
inductive ProtoArg where
  | nul
  | str (s : String)
  | list (xs : List String)
deriving DecidableEq, Repr

/-- The protocols value stored into params: a truthy string becomes a
singleton list, a truthy list is kept, anything falsy defaults to both
protocols. -/
def protocolsValue : ProtoArg → List String
  | .nul => ["tcp", "udp"]
  | .str s => if s = "" then ["tcp", "udp"] else [s]
  | .list xs => if xs.isEmpty then ["tcp", "udp"] else xs

/-- The source_subnet block of add_inbound_rule: a falsy argument is skipped
without adding a params entry; a truthy one is validated against the
subnet pattern, and a leading slash makes the code append a /32 mask. -/
def sourceSubnetParam (source_subnet : Option String) : Except PyErr (Option String) :=
  match source_subnet with
  | none => .ok none
  | some ss =>
    if ss = "" then .ok none
    else if reMatch srcSubnetRe ss = false then .error (.assertError "Illegal source_subnet")
    else if pyFindChar ss '/' = 0 then .ok (some (ss ++ "/32"))
    else .ok (some ss)

/-- Network.add_inbound_rule from src/smartdc/network.py, up to the line that
issues the POST: ok params means the request is issued with this body. -/
def add_inbound_rule (name : String) (start_port : Int) (destination_ip : String)
    (end_port : Option Int) (protocols : ProtoArg)
    (source_subnet : Option String) (destination_base_port : Option Int) :
    Except PyErr Dict :=
  if reMatch ruleNameRe name = false then .error (.assertError "Illegal name")
  else if start_port < 0 ∨ 65535 < start_port then .error (.assertError "Illegal start_port")
  else if pyTruthyOptInt end_port ∧ (end_port.getD 0 < start_port ∨ 65535 < end_port.getD 0) then
    .error (.assertError "Illegal end_port")
  else
    let ep : Int := if pyTruthyOptInt end_port then end_port.getD 0 else start_port
    match sourceSubnetParam source_subnet with
    | .error e => .error e
    | .ok ssOpt =>
      if reMatch ipRe destination_ip = false then .error (.assertError "Illegal destination_ip")
      else if pyTruthyOptInt destination_base_port ∧
          (destination_base_port.getD 0 < 0 ∨ 65535 < destination_base_port.getD 0) then
        .error (.assertError "Illegal destination_base_port")
      else
        let dbp : Int :=
          if pyTruthyOptInt destination_base_port then destination_base_port.getD 0
          else start_port
        .ok ([("name", DVal.str name), ("start_port", DVal.int start_port),
              ("end_port", DVal.int ep),
              ("protocols", DVal.strList (protocolsValue protocols))] ++
          (match ssOpt with
           | some ss => [("source_subnet", DVal.str ss)]
           | none => []) ++
          [("destination_ip", DVal.str destination_ip),
           ("destination_base_port", DVal.int dbp)])

/-- TefDataCenter.create_network from src/smartdc/tef.py, up to the line that
issues the POST: ok params means the request is issued with this body. -/
def create_network (name subnet : String) (resolver_ips : Option (List String)) :
    Except PyErr Dict :=
  if reMatch netNameRe name = false then .error (.assertError "Illegal name")
  else if reMatch subnetRe subnet = false then .error (.assertError "Illegal subnet")
  else
    .ok ([("name", DVal.str name), ("subnet", DVal.str subnet)] ++
      (match resolver_ips with
       | some xs => if xs.isEmpty then [] else [("resolver_ips", DVal.strList xs)]
       | none => []))

/-- The attribute snapshot a Network proxy holds after construction or a
refresh. -/
structure NetworkState where
  id : DVal
  name : Option DVal
  subnet : Option DVal
  resolver_ips : Option DVal
  private_gw_ip : Option DVal
  public_gw_ip : Option DVal
  state : Option DVal
deriving DecidableEq, Repr

/-- Network._save: commit the fields of a data dict to the snapshot; a
missing key becomes None.  The state attribute reads the status key. -/
def Network_save (d : Dict) (idv : DVal) : NetworkState :=
  { id := idv
    name := d.lookup "name"
    subnet := d.lookup "subnet"
    resolver_ips := d.lookup "resolver_ips"
    private_gw_ip := d.lookup "private_gw_ip"
    public_gw_ip := d.lookup "public_gw_ip"
    state := d.lookup "status" }

/-- data.pop of the id key: KeyError when absent, otherwise the value
together with the dict with that key removed. -/
def popId (d : Dict) : Except PyErr (DVal × Dict) :=
  match d.lookup "id" with
  | none => .error (.keyError "id")
  | some v => .ok (v, removeKey "id" d)

/-- What Network.__init__ produces: the saved snapshot, whether
datacenter.raw_network_data was called (a network round trip), and the
callers data mapping after the constructor possibly mutated it. -/
structure InitOutcome where
  st : NetworkState
  fetched : Bool
  callerData : Option Dict
deriving DecidableEq, Repr

/-- Network.__init__ from src/smartdc/network.py.  The remote argument is
the body raw_network_data would return if called.  The first line is
self.id = network_id or data.pop(id); a falsy data then triggers the
fetch. -/
def Network_init (remote : Dict) (network_id : Option String) (data : Option Dict) :
    Except PyErr InitOutcome :=
  let idStep : Except PyErr (DVal × Option Dict) :=
    if pyTruthyOptStr network_id then .ok (DVal.str (network_id.getD ""), data)
    else
      match data with
      | none => .error (.attributeError "NoneType object has no attribute pop")
      | some d =>
        match popId d with
        | .error e => .error e
        | .ok (v, d2) => .ok (v, some d2)
  match idStep with
  | .error e => .error e
  | .ok (idv, d1) =>
    if pyTruthyOptDict d1 then
      .ok { st := Network_save (d1.getD []) idv, fetched := false, callerData := d1 }
    else
      .ok { st := Network_save remote idv, fetched := true, callerData := d1 }

/-- The kinds of Python value a Network can be compared against. -/
inductive PyObj where
  | dict (d : Dict)
  | net (id : DVal)
  | int (n : Int)
  | str (s : String)
  | nul
deriving DecidableEq, Repr

/-- Network.__eq__: against a dict, compare self.id with other.get(id),
where a missing key yields None and so compares unequal; against another
Network, compare ids; against anything else, False. -/
def Network_eq (selfId : DVal) : PyObj → Bool
  | .dict d =>
    match d.lookup "id" with
    | some v => decide (selfId = v)
    | none => false
  | .net oid => decide (selfId = oid)
  | _ => false

/-- Network.__ne__: the negation of __eq__. -/
def Network_ne (selfId : DVal) (o : PyObj) : Bool := !(Network_eq selfId o)

/-- Network.poll_until as a trace function: statuses lists the successive
values the status() round trips return, and the result counts how many
status() calls the loop makes before it returns, none when the trace is
exhausted with the loop still running.  Each sleep sits between two
consecutive counted calls. -/
def poll_until_calls (statuses : List String) (target : String) : Option Nat :=
  match statuses with
  | [] => none
  | s :: rest =>
    if s = target then some 1
    else (poll_until_calls rest target).map (fun n => n + 1)

/-- Network.get_outbound: decode the response body, then return
j[enabled]; a body without that key raises an unchecked KeyError. -/
def get_outbound (body : Dict) : Except PyErr DVal :=
  match body.lookup "enabled" with
  | none => .error (.keyError "enabled")
  | some v => .ok v

/-- Network.set_outbound: the request carries data with the enabled flag,
and the call returns j[enabled] of the response body; a body without that
key raises an unchecked KeyError.  The result pairs the submitted data
with the returned value. -/
def set_outbound (enabled : Bool) (body : Dict) : Except PyErr (Dict × DVal) :=
  match body.lookup "enabled" with
  | none => .error (.keyError "enabled")
  | some v => .ok ([("enabled", DVal.bool enabled)], v)

/-- A sample data mapping used by concrete witnesses. -/
def demoData : Dict :=
  [("id", DVal.str "n1"), ("name", DVal.str "web"), ("status", DVal.str "running")]

/-- A sample remote body used by concrete witnesses. -/
def demoRemote : Dict := [("name", DVal.str "zz")]

theorem lookup_removeKey (k j : String) (d : Dict) (h : k ≠ j) :
    List.lookup k (removeKey j d) = List.lookup k d := by
  induction d with
  | nil => rfl
  | cons p rest ih =>
    by_cases ha : p.1 = j
    · have hk : (k == j) = false := by simp [h]
      simp [removeKey, List.filter_cons, ha, List.lookup, hk]
      simpa [removeKey] using ih
    · have hj : (p.1 == j) = false := by simp [ha]
      simp only [removeKey, List.filter_cons, hj, Bool.not_false, if_pos]
      by_cases hk : (k == p.1) = true
      · simp [List.lookup, hk]
      · simp only [Bool.not_eq_true] at hk
        simp [List.lookup, hk]
        simpa [removeKey] using ih

/-- C1: with start_port 80, destination_ip 10.0.0.5 and every optional
argument omitted, add_inbound_rule issues the POST with end_port 80,
protocols tcp and udp, and destination_base_port 80, but the submitted
params carry NO source_subnet key: the default of 0.0.0.0/0 promised by
the docstring is never filled in, because the params entry is written
only inside the branch taken for a truthy source_subnet argument. -/
theorem add_inbound_rule_default_omits_source_subnet :
    add_inbound_rule "rule1" 80 "10.0.0.5" none ProtoArg.nul none none =
      Except.ok [("name", DVal.str "rule1"), ("start_port", DVal.int 80),
        ("end_port", DVal.int 80), ("protocols", DVal.strList ["tcp", "udp"]),
        ("destination_ip", DVal.str "10.0.0.5"),
        ("destination_base_port", DVal.int 80)] := by decide

/-- C3: the name check uses an unanchored prefix match, so the call with
name equal to the string bad name! is accepted and the POST is issued,
and so is a 33-character name; neither raises the promised
InvalidArgument. -/
theorem add_inbound_rule_accepts_malformed_name :
    add_inbound_rule "bad name!" 80 "10.0.0.5" none ProtoArg.nul none none =
      Except.ok [("name", DVal.str "bad name!"), ("start_port", DVal.int 80),
        ("end_port", DVal.int 80), ("protocols", DVal.strList ["tcp", "udp"]),
        ("destination_ip", DVal.str "10.0.0.5"),
        ("destination_base_port", DVal.int 80)] ∧
    add_inbound_rule "aaaaaaaaaaaaaaaaaaaaaaaaaaaaaaaaa" 80 "10.0.0.5"
        none ProtoArg.nul none none =
      Except.ok [("name", DVal.str "aaaaaaaaaaaaaaaaaaaaaaaaaaaaaaaaa"),
        ("start_port", DVal.int 80),
        ("end_port", DVal.int 80), ("protocols", DVal.strList ["tcp", "udp"]),
        ("destination_ip", DVal.str "10.0.0.5"),
        ("destination_base_port", DVal.int 80)] := by
  constructor
  · decide
  · decide

/-- C4: an explicitly supplied end_port of 0 with start_port 5 violates
end_port at least start_port, yet the call is not rejected: 0 is falsy, so
the code treats it as omitted, silently submits end_port 5, and issues the
POST instead of raising InvalidArgument. -/
theorem add_inbound_rule_end_port_zero_not_rejected :
    add_inbound_rule "r1" 5 "10.0.0.5" (some 0) ProtoArg.nul none none =
      Except.ok [("name", DVal.str "r1"), ("start_port", DVal.int 5),
        ("end_port", DVal.int 5), ("protocols", DVal.strList ["tcp", "udp"]),
        ("destination_ip", DVal.str "10.0.0.5"),
        ("destination_base_port", DVal.int 5)] := by decide

/-- C6: when the decoded body lacks the enabled key, get_outbound and
set_outbound raise an unchecked KeyError, not a typed
MalformedResponseError; when the key is present, each returns its value. -/
theorem outbound_enabled_lookup :
    get_outbound [] = Except.error (PyErr.keyError "enabled") ∧
    set_outbound true [] = Except.error (PyErr.keyError "enabled") ∧
    get_outbound [("enabled", DVal.bool true)] = Except.ok (DVal.bool true) ∧
    set_outbound false [("enabled", DVal.bool false)] =
      Except.ok ([("enabled", DVal.bool false)], DVal.bool false) := by decide

/-- C7: against a stub whose status() round trips yield provisioning,
provisioning, running, the poll_until loop returns after exactly 3 status
calls, and makes no further call whatever the stub would have produced
afterwards. -/
theorem poll_until_stub_three_calls :
    poll_until_calls ["provisioning", "provisioning", "running"] "running" = some 3 ∧
    (∀ extra : List String,
      poll_until_calls (["provisioning", "provisioning", "running"] ++ extra) "running" =
        some 3) := by
  constructor
  · decide
  · intro extra
    simp [poll_until_calls]

/-- C2 counterexample: a data mapping holding only the id key does trigger a
network call: after the constructor pops the id, the remaining dict is
empty and hence falsy, so raw_network_data is fetched (fetched = true),
contrary to the claim that no network call is performed. -/
theorem network_init_id_only_performs_fetch :
    (Network_init [] none (some [("id", DVal.str "n1")])).map InitOutcome.fetched =
      Except.ok true := by decide

/-- C2 amended: for a data mapping that contains an id key and stays
nonempty once the id entry is removed, construction performs no network
call and every snapshot field equals the corresponding value of the
mapping, with missing keys becoming none; the state attribute reads the
status key. -/
theorem network_init_with_data (remote d : Dict) (idv : DVal)
    (hid : List.lookup "id" d = some idv) (hne : removeKey "id" d ≠ []) :
    Network_init remote none (some d) = Except.ok
      { st := { id := idv, name := List.lookup "name" d,
                subnet := List.lookup "subnet" d,
                resolver_ips := List.lookup "resolver_ips" d,
                private_gw_ip := List.lookup "private_gw_ip" d,
                public_gw_ip := List.lookup "public_gw_ip" d,
                state := List.lookup "status" d },
        fetched := false, callerData := some (removeKey "id" d) } := by
  have hb : pyTruthyOptDict (some (removeKey "id" d)) = true := by
    simp [pyTruthyOptDict]
    exact hne
  simp [Network_init, pyTruthyOptStr, popId, hid, hb, Network_save,
    lookup_removeKey "name" "id" d (by decide),
    lookup_removeKey "subnet" "id" d (by decide),
    lookup_removeKey "resolver_ips" "id" d (by decide),
    lookup_removeKey "private_gw_ip" "id" d (by decide),
    lookup_removeKey "public_gw_ip" "id" d (by decide),
    lookup_removeKey "status" "id" d (by decide)]

/-- C2 witness: the amended theorem applied to a concrete mapping with an
id, a name and a status entry. -/
theorem network_init_with_data_witness :
    List.lookup "id" demoData = some (DVal.str "n1") ∧
    removeKey "id" demoData ≠ [] ∧
    Network_init demoRemote none (some demoData) = Except.ok
      { st := { id := DVal.str "n1", name := List.lookup "name" demoData,
                subnet := List.lookup "subnet" demoData,
                resolver_ips := List.lookup "resolver_ips" demoData,
                private_gw_ip := List.lookup "private_gw_ip" demoData,
                public_gw_ip := List.lookup "public_gw_ip" demoData,
                state := List.lookup "status" demoData },
        fetched := false, callerData := some (removeKey "id" demoData) } :=
  ⟨by decide, by decide,
    network_init_with_data demoRemote demoData (DVal.str "n1") (by decide) (by decide)⟩

/-- C5 counterexample: constructing with neither a network id nor a data
mapping fails with an unchecked AttributeError from data.pop on None, not
with the InvalidArgument the claim promises; isAssertError is false on the
outcome. -/
theorem network_init_no_id_not_invalid_argument :
    Network_init [] none none =
      Except.error (PyErr.attributeError "NoneType object has no attribute pop") ∧
    isAssertError (Network_init ([] : Dict) none none) = false := by decide

/-- C5 amended: constructing with neither argument fails, but with an
unchecked AttributeError when data is absent and an unchecked KeyError
when the data mapping lacks an id key; in neither case is the failure the
AssertionError that the specification calls InvalidArgument. -/
theorem network_init_missing_id_untyped_failure (remote d : Dict)
    (h : List.lookup "id" d = none) :
    Network_init remote none none =
      Except.error (PyErr.attributeError "NoneType object has no attribute pop") ∧
    Network_init remote none (some d) = Except.error (PyErr.keyError "id") ∧
    isAssertError (Network_init remote none (some d)) = false := by
  refine ⟨by simp [Network_init, pyTruthyOptStr], ?_, ?_⟩
  · simp [Network_init, pyTruthyOptStr, popId, h]
  · simp [Network_init, pyTruthyOptStr, popId, h, isAssertError]

/-- C5 witness: the amended theorem applied to a concrete mapping without
an id key. -/
theorem network_init_missing_id_untyped_failure_witness :
    List.lookup "id" [("name", DVal.str "w")] = none ∧
    (Network_init [] none none =
      Except.error (PyErr.attributeError "NoneType object has no attribute pop") ∧
    Network_init [] none (some [("name", DVal.str "w")]) =
      Except.error (PyErr.keyError "id") ∧
    isAssertError (Network_init [] none (some [("name", DVal.str "w")])) = false) :=
  ⟨by decide, network_init_missing_id_untyped_failure [] [("name", DVal.str "w")] (by decide)⟩

/-- C8: for every subnet string the pattern does not match at position 0,
create_network raises an AssertionError, the InvalidArgument of the
specification, and never reaches the line that issues the POST, whatever
the name and resolver_ips arguments are. -/
theorem create_network_invalid_subnet_rejected (name subnet : String)
    (rips : Option (List String)) (h : reMatch subnetRe subnet = false) :
    isAssertError (create_network name subnet rips) = true := by
  unfold create_network
  by_cases hn : reMatch netNameRe name = false
  · simp [hn, isAssertError]
  · simp [hn, h, isAssertError]

/-- C8 witness: the subnet string not-a-cidr does not match the pattern and
the call is rejected before any request. -/
theorem create_network_invalid_subnet_witness :
    reMatch subnetRe "not-a-cidr" = false ∧
    isAssertError (create_network "web" "not-a-cidr" none) = true :=
  ⟨by decide, create_network_invalid_subnet_rejected "web" "not-a-cidr" none (by decide)⟩

/-- C9: equality of a Network with another Network holds iff the ids are
equal; with a dict it holds iff the dict has an id entry equal to the
Network id; with an int, a string or None it is always false; and
inequality is the pointwise negation of equality. -/
theorem network_eq_iff_id (a b : DVal) (d : Dict) (n : Int) (s : String) (o : PyObj) :
    (Network_eq a (PyObj.net b) = true ↔ a = b) ∧
    (Network_eq a (PyObj.dict d) = true ↔ List.lookup "id" d = some a) ∧
    Network_eq a (PyObj.int n) = false ∧
    Network_eq a (PyObj.str s) = false ∧
    Network_eq a PyObj.nul = false ∧
    Network_ne a o = !(Network_eq a o) := by
  refine ⟨?_, ?_, rfl, rfl, rfl, rfl⟩
  · simp [Network_eq]
  · cases hl : List.lookup "id" d with
    | none => simp [Network_eq, hl]
    | some v => simp [Network_eq, hl, eq_comm]

/-- C10: when no truthy network id is supplied and the data mapping has an
id entry, construction succeeds, the callers mapping loses its id entry,
and the proxy takes that id; when a truthy network id is supplied, the
callers mapping is returned unchanged and its id entry is ignored in
favour of the argument. -/
theorem network_init_pop_frame (remote d : Dict) (idv : DVal) (nid : String)
    (hid : List.lookup "id" d = some idv) (hnid : nid ≠ "") :
    (∃ o : InitOutcome, Network_init remote none (some d) = Except.ok o ∧
      o.callerData = some (removeKey "id" d) ∧ o.st.id = idv) ∧
    (∃ o : InitOutcome, Network_init remote (some nid) (some d) = Except.ok o ∧
      o.callerData = some d ∧ o.st.id = DVal.str nid) := by
  have hb : (nid == "") = false := by
    simpa using hnid
  constructor
  · by_cases ht : pyTruthyOptDict (some (removeKey "id" d)) = true
    · refine ⟨⟨Network_save (removeKey "id" d) idv, false, some (removeKey "id" d)⟩, ?_, rfl, rfl⟩
      simp [Network_init, pyTruthyOptStr, popId, hid, ht]
    · refine ⟨⟨Network_save remote idv, true, some (removeKey "id" d)⟩, ?_, rfl, rfl⟩
      simp [Network_init, pyTruthyOptStr, popId, hid, ht]
  · by_cases ht : pyTruthyOptDict (some d) = true
    · refine ⟨⟨Network_save d (DVal.str nid), false, some d⟩, ?_, rfl, rfl⟩
      simp [Network_init, pyTruthyOptStr, hb, ht]
    · refine ⟨⟨Network_save remote (DVal.str nid), true, some d⟩, ?_, rfl, rfl⟩
      simp [Network_init, pyTruthyOptStr, hb, ht]

/-- C10 witness: the frame theorem applied to a concrete mapping and the
concrete network id zz. -/
theorem network_init_pop_frame_witness :
    List.lookup "id" demoData = some (DVal.str "n1") ∧ "zz" ≠ "" ∧
    ((∃ o : InitOutcome, Network_init demoRemote none (some demoData) = Except.ok o ∧
      o.callerData = some (removeKey "id" demoData) ∧ o.st.id = DVal.str "n1") ∧
    (∃ o : InitOutcome, Network_init demoRemote (some "zz") (some demoData) = Except.ok o ∧
      o.callerData = some demoData ∧ o.st.id = DVal.str "zz")) :=
  ⟨by decide, by decide,
    network_init_pop_frame demoRemote demoData (DVal.str "n1") "zz" (by decide) (by decide)⟩
